import Mathlib

/-!
Verification of the n2n-maid process supervisor (`src-tauri/src/n2n_process.rs`)
against its natural-language specification.

The Rust supervisor is embedded shallowly: the supervisor's shared mutable
cells (child handle, status, notice, caches, flags) become one explicit state
record `NState`; real-time reads (`unix_now_seconds`) become an explicit `now`
parameter; network and OS effects (UDP replies, spawn results, privilege
elevation) become explicit environment records consumed by the embedded
operations.  Each definition mirrors one Rust item and keeps its name.
-/

namespace N2NMaid

/-! ## String helpers (models of Rust `str` operations used by the code) -/

/-- Model of Rust slice-pattern matching: does `pat` occur at the head of `l`? -/
def charsStartWith : List Char → List Char → Bool
  | _, [] => true
  | [], _ :: _ => false
  | c :: cs, p :: ps => c = p && charsStartWith cs ps

/-- Model of Rust `str::find(pat)`: byte index of the first occurrence of the
substring `pat` (here: index into the char list). -/
def subIdx : List Char → List Char → Option Nat
  | [], pat => if pat.isEmpty then some 0 else none
  | c :: rest, pat =>
    if charsStartWith (c :: rest) pat then some 0
    else (subIdx rest pat).map (· + 1)

/-- Model of Rust `str::contains(&str)`. -/
def strContains (s pat : String) : Bool :=
  (subIdx s.toList pat.toList).isSome

/-- Model of Rust `str::trim()`: strip whitespace from both ends. -/
def trimChars (l : List Char) : List Char :=
  ((l.dropWhile Char.isWhitespace).reverse.dropWhile Char.isWhitespace).reverse

/-- Model of Rust `str::split_whitespace()`: split on whitespace, dropping
empty pieces. -/
def splitWhitespace (s : String) : List String :=
  (s.split Char.isWhitespace).filter (fun t => t ≠ "")

/-! ## Constants (from the top of `n2n_process.rs`) -/

/-- `HEARTBEAT_MAX_INTERVAL_SECS`: freshness window for a live heartbeat. -/
def HEARTBEAT_MAX_INTERVAL_SECS : Nat := 15

/-- `HEARTBEAT_DISCONNECT_THRESHOLD_SECS`: staleness threshold used by
`derived_notice` once a supernode contact has been seen. -/
def HEARTBEAT_DISCONNECT_THRESHOLD_SECS : Nat := 30

/-- `EDGE_STARTUP_WAIT_SECS`: grace period after start before the
"supernode unreachable" notice is derived. -/
def EDGE_STARTUP_WAIT_SECS : Nat := 30

/-- Modulus of the `AtomicU32` management-tag counter (`u32` wrap-around). -/
def U32_MOD : Nat := 2 ^ 32

/-! ## Data model -/

/-- `NetworkInfo`: IP / mask / MAC captured from the tap-device log line. -/
structure NetworkInfo where
  ip : String
  mask : String
  mac : String
deriving Repr, DecidableEq

/-- `ConnectionStatus`: the externally visible state machine. -/
inductive ConnectionStatus where
  | disconnected
  | connecting
  | disconnecting
  | connected (info : Option NetworkInfo)
  | error (msg : String)
deriving Repr, DecidableEq

/-- `PeerNodeInfo`: one roster entry from the management `edges` method.
Latency values are IEEE doubles in the source (`f64`); they are carried,
never computed with, so they embed as Lean `Float`. -/
structure PeerNodeInfo where
  name : Option String
  vpn_addr : Option String
  vpn_ip : Option String
  public_addr : Option String
  mode : Option String
  last_seen : Option Nat
  is_local : Option Bool
  latency_ms : Option Float
  last_ping : Option Nat

/-- `MgmtTimestampsRow`: the `timestamps` row of the management API. -/
structure MgmtTimestampsRow where
  start_time : Nat
  last_super : Nat
  last_p2p : Nat
deriving Repr, DecidableEq

/-- `MgmtState`: cached snapshot of the management channel. -/
structure MgmtState where
  timestamps : Option MgmtTimestampsRow := none
  last_error : Option String := none
deriving Repr, DecidableEq

/-- `N2NConfig` (from `config.rs`): the configuration value object. -/
structure N2NConfig where
  supernode : String
  community : String
  username : String
  encryption_key : String
  ip_mode : String
  static_ip : Option String
  extra_args : Option String
  edge_path : Option String
  tap_device : Option String
  mtu : Option Nat
  theme : Option String

/-- A child-process handle is embedded as its pid. -/
abbrev Child := Nat

/-- `N2NProcess`: the supervisor's shared mutable cells gathered into one
state record.  The log channel (`log_tx`) is a write-only side channel and
is omitted; no claim concerns it. -/
structure NState where
  child : Option Child
  status : ConnectionStatus
  last_notice : Option String
  auto_reconnect : Option N2NConfig
  stop_requested : Bool
  mgmt_password : Option String
  mgmt_state : MgmtState
  mgmt_worker_started : Bool
  peer_cache : List PeerNodeInfo
  peer_latency : List (String × Float × Nat)
  peer_worker_started : Bool

/-- `N2NProcess::is_running`: the stored child handle is present. -/
def is_running (s : NState) : Bool :=
  s.child.isSome

/-! ## Heartbeat-based connectivity (`MgmtState::is_connected`) -/

/-- `MgmtState::is_connected`, with the `unix_now_seconds()` read made an
explicit `now` parameter.  Rust `u64::saturating_sub` is Lean's truncated
`Nat` subtraction. -/
def MgmtState.is_connected (st : MgmtState) (now : Nat) : Bool :=
  match st.timestamps with
  | none => false
  | some ts =>
    let super_ok := ts.last_super != 0 &&
      now - ts.last_super ≤ HEARTBEAT_MAX_INTERVAL_SECS
    let p2p_ok := ts.last_p2p != 0 &&
      now - ts.last_p2p ≤ HEARTBEAT_MAX_INTERVAL_SECS
    super_ok || p2p_ok

/-- `N2NProcess::mgmt_is_connected`: delegates to the cached `MgmtState`. -/
def mgmt_is_connected (s : NState) (now : Nat) : Bool :=
  s.mgmt_state.is_connected now

/-! ## Derived notice and derived status -/

/-- `N2NProcess::derived_notice`: prefer the stdio-extracted notice, else
infer conservatively from the cached timestamps, else surface the cached
management-channel error. -/
def derived_notice (s : NState) (now : Nat) : Option String :=
  match s.last_notice with
  | some n => some n
  | none =>
    match s.status with
    | .connecting | .connected _ =>
      let st := s.mgmt_state
      let fromTs : Option String :=
        match st.timestamps with
        | some ts =>
          if ts.last_super = 0 then
            if now - ts.start_time > EDGE_STARTUP_WAIT_SECS then
              some "error_supernode_unreachable"
            else none
          else
            if now - ts.last_super > HEARTBEAT_DISCONNECT_THRESHOLD_SECS then
              some "error_supernode_unreachable"
            else none
        | none => none
      match fromTs with
      | some n => some n
      | none => st.last_error
    | _ => none

/-- `N2NProcess::derived_status`: the raw status refined by heartbeat
freshness.  `Connecting`/`Connected` are re-decided from the management
cache; the other states pass through. -/
def derived_status (s : NState) (now : Nat) : ConnectionStatus :=
  match s.status with
  | .disconnecting => .disconnecting
  | .disconnected => .disconnected
  | .error m => .error m
  | .connecting =>
    if mgmt_is_connected s now then .connected none else .connecting
  | .connected info =>
    if mgmt_is_connected s now then .connected info else .connecting

/-! ## Peer snapshot -/

/-- Model of `HashMap::get` on the latency cache (`peer_latency`): first
binding for the key, if any.  A `HashMap` has at most one binding per key,
so first-match lookup is its exact finite-map semantics. -/
def latLookup : List (String × Float × Nat) → String → Option (Float × Nat)
  | [], _ => none
  | (k, v) :: rest, key => if k = key then some v else latLookup rest key

/-- `N2NProcess::peers_snapshot`: clone the roster and join the latency
cache onto it by `vpn_ip`.  The function only reads the state (the Rust
body clones both caches under their locks), so it returns a value and
leaves `NState` untouched. -/
def peers_snapshot (s : NState) : List PeerNodeInfo :=
  s.peer_cache.map fun p =>
    match p.vpn_ip with
    | some ip =>
      match latLookup s.peer_latency ip with
      | some (ms, ts) => { p with latency_ms := some ms, last_ping := some ts }
      | none => p
    | none => p

/-! ## Log-line parsing (`parse_network_info`, `extract_field`) -/

/-- `extract_field`: the text after the first occurrence of `field`,
trimmed, cut at the first comma, trimmed again. -/
def extract_field (line field : String) : Option String :=
  match subIdx line.toList field.toList with
  | none => none
  | some i =>
    let remaining := trimChars (line.toList.drop (i + field.toList.length))
    let endIdx := (List.findIdx? (fun c => c = ',') remaining).getD remaining.length
    some (String.mk (trimChars (remaining.take endIdx)))

/-- `parse_network_info`: all three markers must be present. -/
def parse_network_info (line : String) : Option NetworkInfo :=
  match extract_field line "IP:" with
  | none => none
  | some ip =>
    match extract_field line "Mask:" with
    | none => none
    | some mask =>
      match extract_field line "MAC:" with
      | none => none
      | some mac => some { ip := ip, mask := mask, mac := mac }

/-! ## Management password extraction -/

/-- Scan a whitespace-token list for `--management-password <pw>`. -/
def findMgmtPw : List String → Option String
  | [] => none
  | tok :: rest =>
    if tok = "--management-password" then rest.head?
    else findMgmtPw rest

/-- `extract_management_password`: pull the management password out of the
`extra_args` string, if the owner supplied one. -/
def extract_management_password (extra_args : Option String) : Option String :=
  match extra_args with
  | none => none
  | some s => findMgmtPw (splitWhitespace s)

/-! ## Management-tag generator (`MGMT_TAG_COUNTER`, `next_mgmt_tag`) -/

/-- One `fetch_add(1)` on the `AtomicU32` counter: returns the old value,
stores the wrapped successor. -/
def tagCounterStep (c : Nat) : Nat := (c + 1) % U32_MOD

/-- `next_mgmt_tag` applied to a counter value `c`: the tag string is the
decimal rendering of `c % 1000`; the counter advances by one (mod 2^32). -/
def next_mgmt_tag (c : Nat) : String × Nat :=
  (Nat.repr (c % 1000), tagCounterStep c)

/-- Counter value consumed by the `k`-th tag generation (0-indexed);
`MGMT_TAG_COUNTER` is initialised to 1. -/
def counterAt : Nat → Nat
  | 0 => 1
  | k + 1 => tagCounterStep (counterAt k)

/-- Tag string carried by the `k`-th management request. -/
def tagAt (k : Nat) : String :=
  (next_mgmt_tag (counterAt k)).1

/-! ## Management datagram handling (`wait_mgmt_end`) -/

/-- One decoded management datagram (`MgmtPacket`).  A datagram that failed
JSON decoding is represented as `none` in a received list. -/
structure MgmtPacket where
  tag : Option String
  kind : String
  error : Option String

/-- `wait_mgmt_end`: scan the datagrams that arrive before the deadline.
Undecodable datagrams and wrong-tag datagrams are skipped; an `error`
packet fails; an `end` packet succeeds.  Exhausting the list (the deadline
or a read timeout: `should_stop_mgmt_read` breaks the loop) also returns
success - the Rust function falls through to `Ok(())`. -/
def wait_mgmt_end (tag : String) (errorPrefix : String) :
    List (Option MgmtPacket) → Except String Unit
  | [] => .ok ()
  | none :: rest => wait_mgmt_end tag errorPrefix rest
  | some pkt :: rest =>
    if pkt.tag ≠ some tag then wait_mgmt_end tag errorPrefix rest
    else if pkt.kind = "error" then
      .error (errorPrefix ++ "：" ++ pkt.error.getD "unknown")
    else if pkt.kind = "end" then .ok ()
    else wait_mgmt_end tag errorPrefix rest

/-! ## Authentication retry (`query_mgmt_rows_json`, `query_edges_...`) -/

/-- `query_mgmt_rows_json`: `firstAttempt` is the result of
`query_mgmt_rows_json_once(method, password)` and `retryAttempt` the result
of `query_mgmt_rows_json_once(method, Some("n2n"))` - the two network
round-trips are inputs, the retry policy is the code under verification. -/
def query_mgmt_rows_json {α : Type} (password : Option String)
    (firstAttempt retryAttempt : Except String α) : Except String α :=
  match firstAttempt with
  | .ok v => .ok v
  | .error e =>
    if password.isNone && strContains e "badauth" then retryAttempt
    else .error e

/-- `query_edges_from_management_api`: same retry policy, duplicated in the
source around `query_edges_from_management_api_once`. -/
def query_edges_from_management_api {α : Type} (password : Option String)
    (firstAttempt retryAttempt : Except String α) : Except String α :=
  match firstAttempt with
  | .ok v => .ok v
  | .error e =>
    if password.isNone && strContains e "badauth" then retryAttempt
    else .error e

/-! ## `start` -/

/-- Environment consumed by `start`: results of the OS-level effects, made
explicit inputs.  `needsCaps` is true exactly on Linux without effective
root, where `resolve_edge_path_for_caps` + `ensure_edge_capabilities` run
(their combined outcome is `capResult`, yielding the resolved path). -/
structure StartEnv where
  isWindows : Bool
  defaultEdgePath : String
  defaultNodeName : String
  needsCaps : Bool
  capResult : Except String String
  spawnResult : Except String Child

/-- Outcome of `start`: the `Result`, the state after the call, and whether
`Command::spawn` was ever attempted. -/
structure StartOutcome where
  result : Except String Unit
  state : NState
  spawnAttempted : Bool

/-- Argument-vector construction inside `N2NProcess::start` (after the
supernode validation): community, supernode, `-f` off Windows, node name
with hostname fallback, key, address mode, MTU, tap device, verbatim extra
arguments last. -/
def buildArgs (env : StartEnv) (config : N2NConfig) : List String :=
  let args := ["-c", config.community, "-l", config.supernode]
  let args := if env.isWindows then args else "-f" :: args
  let node_name :=
    if config.username.trim = "" then env.defaultNodeName else config.username
  let args := args ++ ["-I", node_name]
  let args :=
    if config.encryption_key ≠ "" then args ++ ["-k", config.encryption_key]
    else args
  let args :=
    if config.ip_mode = "dhcp" then args ++ ["-a", "dhcp:0.0.0.0"]
    else match config.static_ip with
      | some ip => args ++ ["-a", ip]
      | none => args
  let args := match config.mtu with
    | some m => args ++ ["-M", Nat.repr m]
    | none => args
  let args := match config.tap_device with
    | some d => args ++ ["-d", d]
    | none => args
  match config.extra_args with
  | some extra => args ++ splitWhitespace extra
  | none => args

/-- `N2NProcess::start`.  Mirrors the Rust control flow in order:
already-running guard, flag/status/notice resets, edge-path resolution and
capability grant (abort with `Error` status on failure), supernode format
validation (abort with `Error` status), management-password capture, spawn
(abort with `Error` status on failure), then hand-off: store the child,
retain the configuration for reconnect, leave status `Connecting`. -/
def start (env : StartEnv) (config : N2NConfig) (s : NState) : StartOutcome :=
  if s.child.isSome then
    ⟨.error "N2N 进程已在运行", s, false⟩
  else
    let s := { s with stop_requested := false,
                      status := .connecting,
                      last_notice := none }
    let edge_path := config.edge_path.getD env.defaultEdgePath
    match (if env.needsCaps then env.capResult else .ok edge_path : Except String String) with
    | .error e => ⟨.error e, { s with status := .error e }, false⟩
    | .ok _resolved_path =>
      if ':' ∈ config.supernode.toList then
        let _args := buildArgs env config
        let s := { s with
          mgmt_password := extract_management_password config.extra_args }
        match env.spawnResult with
        | .error e => ⟨.error e, { s with status := .error e }, true⟩
        | .ok child =>
          ⟨.ok (), { s with child := some child,
                            auto_reconnect := some config,
                            mgmt_worker_started := true,
                            peer_worker_started := true }, true⟩
      else
        let e := "Supernode 地址格式错误，必须包含端口号（如 vpn.example.com:7777）"
        ⟨.error e, { s with status := .error e }, false⟩

/-! ## `stop` and the monitor loop -/

/-- `N2NProcess::reset_peer_state`. -/
def reset_peer_state (s : NState) : NState :=
  { s with peer_cache := [], peer_latency := [], peer_worker_started := false }

/-- `N2NProcess::reset_mgmt_state`. -/
def reset_mgmt_state (s : NState) : NState :=
  { s with mgmt_state := {}, mgmt_worker_started := false }

/-- Environment consumed by `stop`: whether the UDP bind/send of the
management `stop` request succeeded, the tag drawn for it, and the
datagrams that arrive before the 10-second deadline. -/
structure StopEnv where
  sendOk : Bool
  stopTag : String
  packets : List (Option MgmtPacket)

/-- `N2NProcess::try_management_stop`: send `w <tag>[:1:<pw>] stop` and wait
for the matching `end`.  The password defaults to `"n2n"` when none is
configured; it shapes the request but not which datagrams come back, which
the environment supplies. -/
def try_management_stop (env : StopEnv) (s : NState) : Except String Unit :=
  let _pw := s.mgmt_password.getD "n2n"
  if env.sendOk then
    wait_mgmt_end env.stopTag "Management API stop 失败" env.packets
  else
    .error "把 stop 纸条递给 edge（Management API）失败"

/-- `N2NProcess::stop`.  Clears the reconnect configuration and the notice,
raises the stop flag, switches status to `Disconnecting`, then tries the
cooperative management stop: on success it resets the caches and returns
`Ok` at once; on failure it resets the caches and falls back to signalling
the child (the platform paths all return `Ok`), erring only when no child
handle is held. -/
def stop (env : StopEnv) (s : NState) : Except String Unit × NState :=
  let s := { s with auto_reconnect := none,
                    stop_requested := true,
                    last_notice := none,
                    status := .disconnecting }
  match try_management_stop env s with
  | .ok _ => (.ok (), reset_mgmt_state (reset_peer_state s))
  | .error _ =>
    let s := reset_mgmt_state (reset_peer_state s)
    match s.child with
    | some _ => (.ok (), s)
    | none => (.error "N2N 进程未运行", s)

/-- Result of one `child.try_wait()` in the monitor loop. -/
inductive TryWait where
  | exited
  | running
  | checkFailed

/-- One iteration of the monitor loop after its sleep: observe the child.
Returns the state afterwards and whether the loop continues.  On exit the
handle is cleared and, depending on the stop flag, status becomes
`Disconnected` (notice cleared) or `Error` with the cached notice or the
generic `error_edge_exited`; the loop then breaks - nothing restarts the
process.  With no handle the loop breaks untouched; a failed check only
logs and the loop continues. -/
def monitorStep (s : NState) (w : TryWait) : NState × Bool :=
  match s.child with
  | none => (s, false)
  | some _ =>
    match w with
    | .running => (s, true)
    | .checkFailed => (s, true)
    | .exited =>
      let s1 := { s with child := none }
      if s.stop_requested then
        ({ s1 with status := .disconnected, last_notice := none }, false)
      else
        ({ s1 with
             status := .error (s.last_notice.getD "error_edge_exited") }, false)

/-! ## Concrete sample values used by witnesses and counterexamples -/

/-- A configuration with a well-formed `host:port` supernode. -/
def sampleConfig : N2NConfig :=
  ⟨"vpn.example.com:7777", "comm", "user", "key", "dhcp",
   none, none, none, none, some 1290, none⟩

/-- A configuration whose supernode lacks the port separator. -/
def badSupernodeConfig : N2NConfig :=
  ⟨"vpn.example.com", "comm", "user", "key", "dhcp",
   none, none, none, none, some 1290, none⟩

/-- The freshly-constructed supervisor state (`N2NProcess::new`). -/
def idleState : NState :=
  ⟨none, .disconnected, none, none, false, none, {}, false, [], [], false⟩

/-- A state holding a child handle, as after a successful `start`. -/
def runningState : NState :=
  ⟨some 42, .connecting, none, some sampleConfig, false, none, {}, true,
   [], [], true⟩

/-- A benign start environment: no elevation needed, spawn succeeds. -/
def sampleStartEnv : StartEnv :=
  ⟨false, "edge", "myhost", false, .ok "edge", .ok 42⟩

/-- A stop environment in which the UDP send succeeds but no datagram at
all arrives before the deadline (the management port is not listening). -/
def silentStopEnv : StopEnv := ⟨true, "1", []⟩

end N2NMaid

namespace N2NMaid

/-! ## C1 -/

/-- Claim C1: for every configuration, calling `start` while a child handle
is already held (`is_running` is true) returns an error and mutates no
field of the supervisor state - child and status included. -/
theorem start_already_running_unchanged (env : StartEnv) (config : N2NConfig)
    (s : NState) (c : Child) (h : s.child = some c) :
    (start env config s).result = .error "N2N 进程已在运行" ∧
    (start env config s).state = s ∧
    (start env config s).spawnAttempted = false := by
  simp [start, h]

/-- Witness for C1 at a concrete running state. -/
theorem start_already_running_unchanged_witness :
    runningState.child = some 42 ∧
    (start sampleStartEnv sampleConfig runningState).state = runningState :=
  ⟨rfl,
   (start_already_running_unchanged sampleStartEnv sampleConfig
      runningState 42 rfl).2.1⟩

/-! ## C3 -/

/-- Claim C3: `mgmt_is_connected` is true exactly when the cached
timestamps row exists and one of `last_super`, `last_p2p` is non-zero and
at most 15 seconds old (saturating subtraction); it reads nothing but the
management cache, so no log-derived field can influence it. -/
theorem mgmt_is_connected_iff (s : NState) (now : Nat) :
    mgmt_is_connected s now = true ↔
      ∃ ts, s.mgmt_state.timestamps = some ts ∧
        ((ts.last_super ≠ 0 ∧ now - ts.last_super ≤ 15) ∨
         (ts.last_p2p ≠ 0 ∧ now - ts.last_p2p ≤ 15)) := by
  unfold mgmt_is_connected MgmtState.is_connected
  cases hts : s.mgmt_state.timestamps with
  | none => simp
  | some ts =>
    simp [HEARTBEAT_MAX_INTERVAL_SECS, Bool.or_eq_true, Bool.and_eq_true,
      bne_iff_ne, decide_eq_true_eq]

/-- Witness for C3: a fresh `last_super` alone makes the state connected. -/
theorem mgmt_is_connected_iff_witness :
    mgmt_is_connected
      { idleState with
          mgmt_state := { timestamps := some ⟨0, 5, 0⟩, last_error := none } }
      10 = true :=
  (mgmt_is_connected_iff _ 10).mpr ⟨⟨0, 5, 0⟩, rfl, .inl ⟨by decide, by decide⟩⟩

/-! ## C5 -/

/-- Claim C5: when the monitor observes that the child exited, the handle
is cleared and the loop stops (no restart); with the stop flag set the
final status is `Disconnected` and the notice is cleared, otherwise the
final status is `Error` carrying the cached notice when one exists and the
generic `error_edge_exited` message when none does. -/
theorem monitor_exit_spec (s : NState) (c : Child) (h : s.child = some c) :
    (monitorStep s .exited).2 = false ∧
    (monitorStep s .exited).1.child = none ∧
    (s.stop_requested = true →
      (monitorStep s .exited).1.status = .disconnected ∧
      (monitorStep s .exited).1.last_notice = none) ∧
    (s.stop_requested = false →
      (∀ n, s.last_notice = some n →
         (monitorStep s .exited).1.status = .error n) ∧
      (s.last_notice = none →
         (monitorStep s .exited).1.status = .error "error_edge_exited")) := by
  cases hsr : s.stop_requested with
  | true => simp [monitorStep, h, hsr]
  | false =>
    refine ⟨by simp [monitorStep, h, hsr], by simp [monitorStep, h, hsr],
      by simp [hsr], fun _ => ⟨?_, ?_⟩⟩
    · intro n hn
      simp [monitorStep, h, hsr, hn]
    · intro hn
      simp [monitorStep, h, hsr, hn]

/-- Witness for C5: a stop-requested running state lands in
`Disconnected` with the notice cleared. -/
theorem monitor_exit_spec_witness :
    ({ runningState with stop_requested := true } : NState).child = some 42 ∧
    (monitorStep { runningState with stop_requested := true }
        .exited).1.status = .disconnected :=
  ⟨rfl,
   ((monitor_exit_spec { runningState with stop_requested := true } 42
      rfl).2.2.1 rfl).1⟩

/-! ## C6 -/

/-- Claim C6: a configuration whose supernode field contains no colon makes
`start` fail without ever attempting a spawn; when the supervisor was not
already running, the resulting status is `Error`.  (When it was already
running, `start` still fails without spawning, but leaves the previous
status untouched - that case is claim C1.) -/
theorem start_bad_supernode_spec (env : StartEnv) (config : N2NConfig)
    (s : NState) (h : ':' ∉ config.supernode.toList) :
    (start env config s).spawnAttempted = false ∧
    (∃ e, (start env config s).result = .error e) ∧
    (s.child = none → ∃ msg, (start env config s).state.status = .error msg) := by
  cases hch : s.child with
  | some c =>
    refine ⟨?_, ?_, ?_⟩
    · simp [start, hch]
    · exact ⟨"N2N 进程已在运行", by simp [start, hch]⟩
    · intro hn; exact absurd hn (by simp [hch])
  | none =>
    have h' : ¬ (':' ∈ config.supernode.data) := by simpa [String.toList] using h
    cases hcaps : (if env.needsCaps then env.capResult else .ok (config.edge_path.getD env.defaultEdgePath) : Except String String) with
    | error e => refine ⟨?_, ⟨e, ?_⟩, fun _ => ⟨e, ?_⟩⟩ <;> simp [start, hch, hcaps]
    | ok p =>
      refine ⟨?_, ?_, fun _ => ?_⟩ <;> simp [start, hch, hcaps, h']

/-- Witness for C6: the colon-free sample configuration from an idle
state. -/
theorem start_bad_supernode_spec_witness :
(':' ∉ badSupernodeConfig.supernode.toList) ∧
    (start sampleStartEnv badSupernodeConfig idleState).spawnAttempted = false ∧
    (∃ msg, (start sampleStartEnv badSupernodeConfig idleState).state.status =
      .error msg) :=
  ⟨by decide,
   (start_bad_supernode_spec sampleStartEnv badSupernodeConfig idleState
      (by decide)).1,
   (start_bad_supernode_spec sampleStartEnv badSupernodeConfig idleState
      (by decide)).2.2 rfl⟩

/-! ## C9 -/

/-- When a marker does not occur in the line, field extraction fails. -/
theorem extract_field_none_of_not_contains (line field : String)
    (h : strContains line field = false) : extract_field line field = none := by
  unfold strContains at h
  unfold extract_field
  cases hi : subIdx line.toList field.toList with
  | none => rfl
  | some i => rw [hi] at h; simp at h

/-- Claim C9: network-info extraction on the reference tap-device line
yields exactly the expected IP / mask / MAC triple, and extraction returns
`none` whenever any of the three fixed markers is missing from the line. -/
theorem parse_network_info_spec :
    parse_network_info
      "created local tap device IP: 192.168.125.67, Mask: 255.255.255.0, MAC: C6:D2:CB:35:42:85" =
      some ⟨"192.168.125.67", "255.255.255.0", "C6:D2:CB:35:42:85"⟩ ∧
    ∀ line : String,
      (strContains line "IP:" = false ∨ strContains line "Mask:" = false ∨
        strContains line "MAC:" = false) →
      parse_network_info line = none := by
  refine ⟨by decide, ?_⟩
  intro line hmiss
  unfold parse_network_info
  rcases hmiss with hm | hm | hm
  · rw [extract_field_none_of_not_contains line "IP:" hm]
  · cases h1 : extract_field line "IP:" <;>
      simp [extract_field_none_of_not_contains line "Mask:" hm]
  · cases h1 : extract_field line "IP:" <;>
      cases h2 : extract_field line "Mask:" <;>
        simp [extract_field_none_of_not_contains line "MAC:" hm]

/-- Witness for C9: a line with no "IP:" marker parses to `none`. -/
theorem parse_network_info_spec_witness :
    strContains "edge started" "IP:" = false ∧
    parse_network_info "edge started" = none :=
  ⟨by decide,
   parse_network_info_spec.2 "edge started" (.inl (by decide))⟩

/-! ## C8 -/

/-- Claim C8: `peers_snapshot` returns the roster entries in order (same
length, index-wise image); an entry whose bare IP equals a latency-cache
key gets that binding's latency and timestamp, and an entry whose bare IP
matches no key, or is absent, is returned unchanged (so its latency fields
stay whatever the roster holds - `none` for roster entries as built).
`peers_snapshot` is a pure read: it takes the state and returns a list,
mutating nothing. -/
theorem peers_snapshot_join_spec (s : NState) (i : Nat) (p : PeerNodeInfo)
    (h : s.peer_cache[i]? = some p) :
    (peers_snapshot s).length = s.peer_cache.length ∧
    (∀ ip ms ts, p.vpn_ip = some ip →
        latLookup s.peer_latency ip = some (ms, ts) →
        (peers_snapshot s)[i]? =
          some { p with latency_ms := some ms, last_ping := some ts }) ∧
    (∀ ip, p.vpn_ip = some ip → latLookup s.peer_latency ip = none →
        (peers_snapshot s)[i]? = some p) ∧
    (p.vpn_ip = none → (peers_snapshot s)[i]? = some p) := by
  refine ⟨by simp [peers_snapshot], ?_, ?_, ?_⟩
  · intro ip ms ts hip hl
    simp [peers_snapshot, List.getElem?_map, h, hip, hl]
  · intro ip hip hl
    simp [peers_snapshot, List.getElem?_map, h, hip, hl]
  · intro hip
    simp [peers_snapshot, List.getElem?_map, h, hip]

/-- Roster and latency cache used by the C8 witness: the peer with bare IP
`10.0.0.2` has a cached latency; the peer with bare IP `10.0.0.3` has
none. -/
def peersState : NState :=
  { idleState with
      peer_cache :=
        [⟨some "alice", some "10.0.0.2/24", some "10.0.0.2", some "1.2.3.4:5", some "p2p",
            some 7, some false, none, none⟩,
         ⟨some "bob", some "10.0.0.3/24", some "10.0.0.3", none, none,
            none, none, none, none⟩],
      peer_latency := [("10.0.0.2", (12.5, 100))] }

/-- Witness for C8: the `10.0.0.2` entry picks up `(12.5, 100)`; the
`10.0.0.3` entry comes back unchanged, latency fields still `none`. -/
theorem peers_snapshot_join_spec_witness :
    peersState.peer_cache[0]?.isSome ∧
    (peers_snapshot peersState)[0]? =
      some ⟨some "alice", some "10.0.0.2/24", some "10.0.0.2", some "1.2.3.4:5", some "p2p",
        some 7, some false, some 12.5, some 100⟩ ∧
    (peers_snapshot peersState)[1]? =
      some ⟨some "bob", some "10.0.0.3/24", some "10.0.0.3", none, none,
        none, none, none, none⟩ :=
  ⟨rfl,
   (peers_snapshot_join_spec peersState 0 _ rfl).2.1 "10.0.0.2" 12.5 100 rfl rfl,
   (peers_snapshot_join_spec peersState 1 _ rfl).2.2.1 "10.0.0.3" rfl rfl⟩

/-! ## C7 -/

/-- Claim C7: with no caller-supplied password, a first attempt failing
with an authentication error (`badauth` in the message) is retried exactly
once with the default credential `"n2n"`, and the retry's result is
returned as-is; with a password supplied, or a non-authentication failure,
no retry happens and the first attempt's outcome is returned.  Both
management-query entry points implement the same policy. -/
theorem mgmt_auth_retry_spec {α : Type} (password : Option String)
    (firstAttempt retryAttempt : Except String α) :
    (∀ e, firstAttempt = .error e → password = none →
        strContains e "badauth" = true →
        query_mgmt_rows_json password firstAttempt retryAttempt = retryAttempt ∧
        query_edges_from_management_api password firstAttempt retryAttempt =
          retryAttempt) ∧
    (∀ p, password = some p →
        query_mgmt_rows_json password firstAttempt retryAttempt = firstAttempt ∧
        query_edges_from_management_api password firstAttempt retryAttempt =
          firstAttempt) ∧
    (∀ e, firstAttempt = .error e → strContains e "badauth" = false →
        query_mgmt_rows_json password firstAttempt retryAttempt = .error e ∧
        query_edges_from_management_api password firstAttempt retryAttempt =
          .error e) ∧
    (∀ v, firstAttempt = .ok v →
        query_mgmt_rows_json password firstAttempt retryAttempt = .ok v ∧
        query_edges_from_management_api password firstAttempt retryAttempt =
          .ok v) := by
  refine ⟨?_, ?_, ?_, ?_⟩
  · intro e he hpw hbad
    constructor <;>
      simp [query_mgmt_rows_json, query_edges_from_management_api, he, hpw, hbad]
  · intro p hpw
    cases firstAttempt with
    | ok v => constructor <;> rfl
    | error e =>
      constructor <;>
        simp [query_mgmt_rows_json, query_edges_from_management_api, hpw]
  · intro e he hbad
    constructor <;>
      simp [query_mgmt_rows_json, query_edges_from_management_api, he, hbad]
  · intro v hv
    constructor <;>
      simp [query_mgmt_rows_json, query_edges_from_management_api, hv]

/-- Witness for C7: the `timestamps` query with no password and a
`badauth` first failure returns the retry's rows. -/
theorem mgmt_auth_retry_spec_witness :
    strContains "Management API 返回错误：badauth" "badauth" = true ∧
    query_mgmt_rows_json (α := List String) none
      (.error "Management API 返回错误：badauth") (.ok ["row"]) = .ok ["row"] :=
  ⟨by decide,
   ((mgmt_auth_retry_spec (α := List String) none
      (.error "Management API 返回错误：badauth") (.ok ["row"])).1
      "Management API 返回错误：badauth" rfl rfl (by decide)).1⟩

/-! ## C2 -/

/-- Counterexample to claim C2 as stated: from the idle state (no child
held), with the UDP send succeeding and no datagram arriving before the
stop deadline - exactly what happens when no edge process is listening -
`wait_mgmt_end` falls through to `Ok`, `try_management_stop` reports
success, and `stop` returns `Ok`, not an error, for a process that is not
running. -/
theorem stop_not_running_cex :
    idleState.child = none ∧
    (stop silentStopEnv idleState).1 = .ok () :=
  ⟨rfl, rfl⟩

/-- Claim C2 (amended): when `stop` is called while no child handle is
held, it returns the "not running" error exactly when the cooperative
management-stop attempt fails; when that attempt reports success - which
includes the case of no reply arriving before the deadline - `stop`
returns success.  In particular a second consecutive `stop` never panics
and never errs in any other way than the clean "not running" failure. -/
theorem stop_not_running_spec (env : StopEnv) (s : NState)
    (h : s.child = none) :
    ((∃ e, try_management_stop env s = .error e) →
        (stop env s).1 = .error "N2N 进程未运行") ∧
    (∀ u, try_management_stop env s = .ok u → (stop env s).1 = .ok ()) := by
  constructor
  · rintro ⟨e, he⟩
    simp only [stop, try_management_stop] at he ⊢
    rw [he]
    simp [reset_mgmt_state, reset_peer_state, h]
  · intro u hu
    simp only [stop, try_management_stop] at hu ⊢
    rw [hu]

/-- Witness for C2 (amended): with the UDP send itself failing, `stop`
from the idle state reports "not running". -/
theorem stop_not_running_spec_witness :
    idleState.child = none ∧
    (stop ⟨false, "1", []⟩ idleState).1 = .error "N2N 进程未运行" :=
  ⟨rfl,
   (stop_not_running_spec ⟨false, "1", []⟩ idleState rfl).1
     ⟨"把 stop 纸条递给 edge（Management API）失败", rfl⟩⟩

/-! ## C4 -/

/-- State used to refute claim C4: raw status `Connecting`, no cached
notice, timestamps row with `last_super = 0` and `start_time` more than 30
seconds in the past - but a fresh `last_p2p`. -/
def freshP2pState : NState :=
  { idleState with
      child := some 42,
      status := .connecting,
      mgmt_state := { timestamps := some ⟨0, 0, 100⟩, last_error := none } }

/-- Counterexample to claim C4 as stated: at `now = 100` this state meets
every hypothesis of the claim (raw status `Connecting`, `last_super = 0`,
more than 30 seconds since `start_time`, no cached notice), yet
`derived_status` returns `Connected` - a fresh `last_p2p` alone satisfies
the heartbeat-freshness test. -/
theorem derived_status_fresh_p2p_cex :
    freshP2pState.status = .connecting ∧
    freshP2pState.last_notice = none ∧
    freshP2pState.mgmt_state.timestamps = some ⟨0, 0, 100⟩ ∧
    (100 : Nat) - 0 > 30 ∧
    derived_status freshP2pState 100 = .connected none ∧
    derived_notice freshP2pState 100 = some "error_supernode_unreachable" :=
  ⟨rfl, rfl, rfl, by decide, rfl, rfl⟩

/-- Claim C4 (amended): under the claim's hypotheses plus the condition
that `last_p2p` is zero or stale (older than the 15-second freshness
window), `derived_status` stays `Connecting` and `derived_notice` returns
the rendezvous-unreachable code. -/
theorem derived_stalled_spec (s : NState) (now : Nat) (ts : MgmtTimestampsRow)
    (hraw : s.status = .connecting ∨ ∃ info, s.status = .connected info)
    (hts : s.mgmt_state.timestamps = some ts)
    (hsuper : ts.last_super = 0)
    (helapsed : now - ts.start_time > 30)
    (hnotice : s.last_notice = none)
    (hp2p : ts.last_p2p = 0 ∨ now - ts.last_p2p > 15) :
    derived_status s now = .connecting ∧
    derived_notice s now = some "error_supernode_unreachable" := by
  have hnc : mgmt_is_connected s now = false := by
    unfold mgmt_is_connected MgmtState.is_connected
    rw [hts]
    rcases hp2p with hz | hstale
    · simp [hsuper, hz]
    · have hnle : ¬ (now - ts.last_p2p ≤ HEARTBEAT_MAX_INTERVAL_SECS) := by
        unfold HEARTBEAT_MAX_INTERVAL_SECS
        omega
      simp [hsuper, hnle]
  constructor
  · rcases hraw with hr | ⟨info, hr⟩ <;> simp [derived_status, hr, hnc]
  · rcases hraw with hr | ⟨info, hr⟩ <;>
      simp [derived_notice, hr, hnotice, hts, hsuper, EDGE_STARTUP_WAIT_SECS,
        helapsed]

/-- Witness for C4 (amended): concrete stalled state at `now = 100`. -/
theorem derived_stalled_spec_witness :
    derived_status
      { idleState with
          child := some 42,
          status := .connecting,
          mgmt_state := { timestamps := some ⟨0, 0, 0⟩, last_error := none } }
      100 = .connecting :=
  (derived_stalled_spec _ 100 ⟨0, 0, 0⟩ (.inl rfl) rfl rfl (by decide) rfl
    (.inl rfl)).1

/-! ## C10 -/

/-- Closed form of the tag counter: `k` generations after initialisation
the counter holds `(1 + k) mod 2^32`. -/
theorem counterAt_eq (k : Nat) : counterAt k = (1 + k) % U32_MOD := by
  induction k with
  | zero =>
    show 1 = 1 % U32_MOD
    rw [Nat.mod_eq_of_lt]
    decide
  | succ k ih =>
    show tagCounterStep (counterAt k) = (1 + (k + 1)) % U32_MOD
    rw [ih]
    unfold tagCounterStep U32_MOD
    omega

/-- Counterexample to claim C10 as stated: the tag counter is a `u32` and
2^32 is not a multiple of 1000, so across the wrap-around two requests
issued exactly 1000 generations apart carry different tags ("295" versus
"999" here). -/
theorem mgmt_tag_wrap_cex :
    tagAt (U32_MOD - 2 + 1000) ≠ tagAt (U32_MOD - 2) := by
  simp only [tagAt, next_mgmt_tag, counterAt_eq]
  decide

/-- Claim C10 (amended): every tag is the decimal rendering of the counter
value modulo 1000, hence of a value strictly below 1000; among any 1001
consecutive generations two tags coincide; and two requests issued 1000
generations apart carry identical tags provided the `u32` counter does not
wrap between them. -/
theorem mgmt_tag_spec (k : Nat) :
    (∃ v, v < 1000 ∧ tagAt k = Nat.repr v) ∧
    (∃ i j, i < j ∧ j ≤ 1000 ∧ tagAt (k + i) = tagAt (k + j)) ∧
    (1 + k + 1000 < U32_MOD → tagAt (k + 1000) = tagAt k) := by
  refine ⟨⟨counterAt k % 1000, Nat.mod_lt _ (by decide), rfl⟩, ?_, ?_⟩
  · have hcard : (Finset.range 1000).card < (Finset.range 1001).card := by
      simp
    have hmaps : ∀ a ∈ Finset.range 1001,
        counterAt (k + a) % 1000 ∈ Finset.range 1000 := by
      intro a _
      exact Finset.mem_range.mpr (Nat.mod_lt _ (by decide))
    obtain ⟨x, hx, y, hy, hne, heq⟩ :=
      Finset.exists_ne_map_eq_of_card_lt_of_maps_to hcard hmaps
    have htag : ∀ a b : Nat, counterAt (k + a) % 1000 = counterAt (k + b) % 1000 →
        tagAt (k + a) = tagAt (k + b) := by
      intro a b hab
      simp only [tagAt, next_mgmt_tag, hab]
    rcases Nat.lt_or_ge x y with hlt | hge
    · exact ⟨x, y, hlt, Nat.lt_succ_iff.mp (Finset.mem_range.mp hy), htag x y heq⟩
    · have hlt : y < x := Nat.lt_of_le_of_ne hge (fun hyx => hne (hyx ▸ rfl))
      exact ⟨y, x, hlt, Nat.lt_succ_iff.mp (Finset.mem_range.mp hx),
        htag y x heq.symm⟩
  · intro hwrap
    simp only [tagAt, next_mgmt_tag, counterAt_eq]
    have h1 : (1 + k) % U32_MOD = 1 + k :=
      Nat.mod_eq_of_lt (by omega)
    have h2 : (1 + (k + 1000)) % U32_MOD = 1 + k + 1000 := by
      rw [Nat.mod_eq_of_lt (by omega)]
      omega
    rw [h1, h2, Nat.add_mod_right]

/-- Witness for C10 (amended): generations 5 and 1005, well below the
wrap, carry the same tag. -/
theorem mgmt_tag_spec_witness :
    1 + 5 + 1000 < U32_MOD ∧ tagAt (5 + 1000) = tagAt 5 :=
  ⟨by decide, (mgmt_tag_spec 5).2.2 (by decide)⟩

end N2NMaid
